import Mathlib

/-!
Verification of the Sphinx documentation configuration module
`docs/conf.py` of the Gaussian-Extractor repository.

The module is a straight-line Python script: it first mutates the
interpreter state by `sys.path.insert(0, os.path.abspath('../src'))`
and then binds a sequence of top-level configuration names to literal
values (one of which, `exhale_args`, embeds `os.path.abspath("../src")`),
and finally defines a `setup` callback.  We embed the Python value
universe shallowly, the module evaluation as an explicit state
transition plus the ordered list of produced bindings, and the external
`os` module as a parameter supplying `os.path.abspath`.
-/

namespace DocsConf

/-- Shallow embedding of the Python values occurring in `docs/conf.py`:
strings, booleans, integers, `None`, lists, tuples and string-keyed
dictionaries. -/
inductive Value where
  | str (s : String)
  | bool (b : Bool)
  | int (n : Int)
  | none
  | list (xs : List Value)
  | tuple (xs : List Value)
  | dict (xs : List (String × Value))

/-- Lookup in a Python dictionary represented as an association list
(first match; the literal dictionaries in the module have distinct keys). -/
def dictLookup (d : List (String × Value)) (k : String) : Option Value :=
  match d with
  | [] => Option.none
  | (k₀, v₀) :: rest => if k₀ = k then some v₀ else dictLookup rest k

/-- The external `os` module, of which `conf.py` only uses
`os.path.abspath`.  It is a parameter of the embedding because the `os`
library is not part of this repository. -/
structure OSModule where
  path_abspath : String → String

/-- Interpreter state outside the configuration module itself: the
`sys.path` list, plus arbitrary further state `other` that the module
does not touch. -/
structure InterpState (σ : Type) where
  sysPath : List String
  other : σ
  deriving DecidableEq

/-- Embedding of the path-setup statement of `conf.py`
(`sys.path.insert(0, os.path.abspath('../src'))`). -/
def pathSetup {σ : Type} (os : OSModule) (s : InterpState σ) : InterpState σ :=
  ⟨os.path_abspath "../src" :: s.sysPath, s.other⟩

/-- `master_doc = 'index'` -/
def master_doc : String := "index"

/-- `release = '0.5.0'` -/
def release : String := "0.5.0"

/-- `version = '0.5.0'` -/
def version : String := "0.5.0"

/-- `author = 'Le Nhan Pham'` -/
def author : String := "Le Nhan Pham"

/-- `html_theme = "furo"` -/
def html_theme : String := "furo"

/-- The `extensions` list of `conf.py`. -/
def extensions : List String :=
  ["sphinx.ext.autodoc", "sphinx.ext.doctest", "sphinx.ext.intersphinx",
   "sphinx.ext.todo", "sphinx.ext.coverage", "sphinx.ext.mathjax",
   "sphinx.ext.ifconfig", "sphinx.ext.viewcode", "sphinx.ext.githubpages",
   "sphinx.ext.napoleon", "breathe", "exhale"]

/-- The Doxygen stdin configuration string
`exhale_args["exhaleDoxygenStdin"]`, reproduced verbatim from the
triple-quoted Python literal (leading newline, 8-space indentation of
each assignment line, trailing newline plus 4 spaces). -/
def exhaleDoxygenStdin : String :=
  "\n        PROJECT_NAME = GaussianExtractor\n        INPUT = ../src\n        FILE_PATTERNS = *.cpp *.hpp *.h *.cxx *.cc\n        RECURSIVE = YES\n        GENERATE_XML = YES\n        XML_OUTPUT = xml\n        EXTRACT_ALL = YES\n        EXTRACT_PRIVATE = YES\n        EXTRACT_STATIC = YES\n        EXTRACT_LOCAL_CLASSES = YES\n        EXTRACT_LOCAL_METHODS = YES\n        EXTRACT_ANON_NSPACES = YES\n        ENABLE_PREPROCESSING = YES\n        VERBATIM_HEADERS = NO\n        XML_PROGRAMLISTING = NO\n        MACRO_EXPANSION = YES\n        EXPAND_ONLY_PREDEF = YES\n        INLINE_SOURCES = YES\n        SHOW_FILES = YES\n        EXCLUDE_PATTERNS = */test/* */tests/* */example/* */examples/*\n        HAVE_DOT = YES\n        UML_LOOK = YES\n        CALL_GRAPH = YES\n        CALLER_GRAPH = YES\n        INCLUDE_GRAPH = YES\n        INCLUDED_BY_GRAPH = YES\n        COLLABORATION_GRAPH = YES\n        CLASS_DIAGRAMS = YES\n        CLASS_GRAPH = YES\n        GRAPHICAL_HIERARCHY = YES\n        DIRECTORY_GRAPH = YES\n        DOT_IMAGE_FORMAT = svg\n        INTERACTIVE_SVG = YES\n        DOT_TRANSPARENT = YES\n        DOT_MULTI_TARGETS = YES\n        QUIET = YES\n        EXCLUDE_PATTERNS = */src/*.cpp\n    "

/-- The `exhale_args` dictionary of `conf.py`. -/
def exhale_args (os : OSModule) : List (String × Value) :=
  [("containmentFolder", .str "./api"),
   ("rootFileName", .str "api.rst"),
   ("rootFileTitle", .str "Gaussian Extractor API"),
   ("doxygenStripFromPath", .str (os.path_abspath "../src")),
   ("exhaleExecutesDoxygen", .bool true),
   ("exhaleDoxygenStdin", .str exhaleDoxygenStdin),
   ("createTreeView", .bool true),
   ("afterTitleDescription", .str "Comprehensive API documentation for the Gaussian Extractor."),
   ("verboseBuild", .bool false)]

/-- The `breathe_projects` dictionary. -/
def breathe_projects : List (String × Value) :=
  [("GaussianExtractor", .str "./xml/")]

/-- `breathe_default_project = 'GaussianExtractor'` -/
def breathe_default_project : String := "GaussianExtractor"

/-- The `exclude_patterns` list. -/
def exclude_patterns : List String := ["_build", "Thumbs.db", ".DS_Store"]

/-- The `latex_elements` dictionary. -/
def latex_elements : List (String × Value) :=
  [("papersize", .str "a4paper"),
   ("pointsize", .str "11pt"),
   ("preamble", .str "\n        \\usepackage\x7bamsmath\x7d\n        \\usepackage\x7bamssymb\x7d\n        \\usepackage\x7bphysics\x7d\n        \\usepackage\x7bsiunitx\x7d\n    "),
   ("figure_align", .str "htbp")]

/-- The `latex_documents` list: a single 5-tuple whose first component
is `master_doc`. -/
def latex_documents : List (List Value) :=
  [[.str master_doc, .str "GaussianExtractor.tex",
    .str "Gaussian Extractor Documentation", .str "Le Nhan Pham", .str "manual"]]

/-- The `man_pages` list: a single 5-tuple whose first component is
`master_doc`. -/
def man_pages : List (List Value) :=
  [[.str master_doc, .str "gaussianextractor",
    .str "Gaussian Extractor Documentation", .list [.str author], .int 1]]

/-- The `texinfo_documents` list: a single 7-tuple whose first component
is `master_doc`. -/
def texinfo_documents : List (List Value) :=
  [[.str master_doc, .str "GaussianExtractor",
    .str "Gaussian Extractor Documentation", .str author, .str "GaussianExtractor",
    .str "High-performance Gaussian log file processor.", .str "Miscellaneous"]]

/-- The `intersphinx_mapping` dictionary. -/
def intersphinx_mapping : List (String × Value) :=
  [("python", .tuple [.str "https://docs.python.org/3/", .none])]

/-- The `html_context` dictionary. -/
def html_context : List (String × Value) :=
  [("display_github", .bool true),
   ("github_user", .str "lenhanpham"),
   ("github_repo", .str "gaussian-extractor"),
   ("github_version", .str "main"),
   ("conf_py_path", .str "/docs/")]

/-- The `pdf_documents` list. -/
def pdf_documents : List (List Value) :=
  [[.str master_doc, .str "GaussianExtractor",
    .str "Gaussian Extractor Documentation", .str author, .str "manual"]]

/-- The `linkcheck_ignore` list of regular-expression strings. -/
def linkcheck_ignore : List String :=
  ["https://github.com/lenhanpham/gaussian-extractor/.*",
   "https://docs.python.org/.*",
   "https://en.cppreference.com/.*"]

/-- The top-level bindings produced by evaluating the module, in the
order the assignment statements appear in `docs/conf.py`. -/
def moduleBindings (os : OSModule) : List (String × Value) :=
  [("project", .str "Gaussian Extractor"),
   ("copyright", .str "2025, Le Nhan Pham"),
   ("author", .str author),
   ("release", .str release),
   ("version", .str version),
   ("master_doc", .str master_doc),
   ("extensions", .list (extensions.map .str)),
   ("exhale_args", .dict (exhale_args os)),
   ("breathe_projects", .dict breathe_projects),
   ("breathe_default_project", .str breathe_default_project),
   ("templates_path", .list [.str "_templates"]),
   ("exclude_patterns", .list (exclude_patterns.map .str)),
   ("html_theme", .str html_theme),
   ("html_static_path", .list [.str "_static"]),
   ("html_css_files", .list []),
   ("html_js_files", .list []),
   ("latex_elements", .dict latex_elements),
   ("latex_documents", .list (latex_documents.map .tuple)),
   ("man_pages", .list (man_pages.map .tuple)),
   ("texinfo_documents", .list (texinfo_documents.map .tuple)),
   ("intersphinx_mapping", .dict intersphinx_mapping),
   ("todo_include_todos", .bool true),
   ("autoclass_content", .str "both"),
   ("autodoc_member_order", .str "bysource"),
   ("autodoc_default_flags", .list [.str "members", .str "undoc-members", .str "show-inheritance"]),
   ("napoleon_google_docstring", .bool true),
   ("napoleon_numpy_docstring", .bool true),
   ("napoleon_include_init_with_doc", .bool false),
   ("napoleon_include_private_with_doc", .bool false),
   ("napoleon_include_special_with_doc", .bool true),
   ("napoleon_use_admonition_for_examples", .bool false),
   ("napoleon_use_admonition_for_notes", .bool false),
   ("napoleon_use_admonition_for_references", .bool false),
   ("napoleon_use_ivar", .bool false),
   ("napoleon_use_param", .bool true),
   ("napoleon_use_rtype", .bool true),
   ("pygments_style", .str "sphinx"),
   ("keep_warnings", .bool false),
   ("html_context", .dict html_context),
   ("pdf_documents", .list (pdf_documents.map .tuple)),
   ("linkcheck_ignore", .list (linkcheck_ignore.map .str))]

/-- The names bound by the module, in assignment order. -/
def assignedNames : List String := (moduleBindings ⟨fun p => p⟩).map Prod.fst

/-- Evaluating the whole module: the single side effect on interpreter
state is the `sys.path.insert` of the path-setup section; the result of
evaluation is the ordered list of top-level bindings. -/
def evalConfModule {σ : Type} (os : OSModule) (s : InterpState σ) :
    InterpState σ × List (String × Value) :=
  (pathSetup os s, moduleBindings os)

/-- The `setup` callback defined at the end of `conf.py`: it ignores its
argument and returns a literal dictionary. -/
def setup {App : Type} (_app : App) : List (String × Value) :=
  [("version", .str "0.1"),
   ("parallel_read_safe", .bool true),
   ("parallel_write_safe", .bool true)]

/-- Split a character list at every occurrence of a separator
character. -/
def splitChar (sep : Char) : List Char → List (List Char)
  | [] => [[]]
  | c :: rest =>
    if c = sep then [] :: splitChar sep rest
    else
      match splitChar sep rest with
      | [] => [[c]]
      | l :: ls => (c :: l) :: ls

/-- Whitespace characters for trimming configuration lines. -/
def isSpaceChar (c : Char) : Bool :=
  c = ' ' || c = '\t' || c = '\n' || c = '\r'

/-- Remove leading and trailing whitespace from a character list. -/
def trimChars (cs : List Char) : List Char :=
  ((cs.dropWhile isSpaceChar).reverse.dropWhile isSpaceChar).reverse

/-- Split a character list at the first occurrence of a separator
character, if present. -/
def splitFirst (sep : Char) : List Char → Option (List Char × List Char)
  | [] => Option.none
  | c :: rest =>
    if c = sep then some ([], rest)
    else
      match splitFirst sep rest with
      | Option.none => Option.none
      | some (k, v) => some (c :: k, v)

/-- Parse one line of a Doxygen configuration-on-stdin block as a
`KEY = VALUE` assignment: the key is the text before the first `=`
(trimmed), the value the text after it (trimmed); blank lines and lines
without `=` are not assignments. -/
def parseDoxyLine (l : List Char) : Option (String × String) :=
  match splitFirst '=' l with
  | Option.none => Option.none
  | some (k, v) => some (String.mk (trimChars k), String.mk (trimChars v))

/-- All `KEY = VALUE` assignments of `exhaleDoxygenStdin`, in line order. -/
def doxyAssignments : List (String × String) :=
  (splitChar '\n' exhaleDoxygenStdin.data).filterMap parseDoxyLine

/-- The assignments of `exhaleDoxygenStdin` whose key is
`EXCLUDE_PATTERNS`, in line order. -/
def excludeAssignments : List (String × String) :=
  doxyAssignments.filter (fun p => p.1 = "EXCLUDE_PATTERNS")

/-- Effective value of a key under last-assignment-wins key/value
semantics: the value of the last assignment to that key, if any. -/
def doxyEffective (k : String) : Option String :=
  (doxyAssignments.filter (fun p => p.1 = k)).getLast?.map Prod.snd

/-- Modelled from the spec: the Python `re` module that compiles the
`linkcheck_ignore` strings is external to this repository.  Following
the spec sentence that the patterns are syntactically well-formed
regular expressions, this scanner checks the syntactic conditions under
which compilation cannot reach an error branch: every escape is
complete, character classes and groups are balanced, and each quantifier
follows a quantifiable atom.  Arguments: remaining input, open-group
depth, inside-character-class flag, preceding-atom-quantifiable flag. -/
def regexScan : List Char → Nat → Bool → Bool → Bool
  | [], depth, inClass, _ => depth == 0 && !inClass
  | c :: rest, depth, inClass, prevAtom =>
    if c = '\\' then
      match rest with
      | [] => false
      | _ :: rest₂ => regexScan rest₂ depth inClass true
    else if inClass then
      if c = ']' then regexScan rest depth false true
      else regexScan rest depth true prevAtom
    else if c = '[' then regexScan rest depth true false
    else if c = '(' then regexScan rest (depth + 1) false false
    else if c = ')' then
      match depth with
      | 0 => false
      | d + 1 => regexScan rest d false true
    else if c = '*' || c = '+' || c = '?' then
      prevAtom && regexScan rest depth false false
    else if c = '|' then regexScan rest depth false false
    else regexScan rest depth false true

/-- Modelled from the spec: a string is a well-formed regular expression
when `regexScan` accepts it from the initial state. -/
def regexWellFormed (s : String) : Bool :=
  regexScan s.toList 0 false false

/-- Modelled from the spec: the glob matcher that consumes
`exclude_patterns` is part of the external documentation tool.  A path
pattern is well-formed when it is nonempty and every character-class
bracket opened is closed. -/
def globScan : List Char → Bool → Bool
  | [], inClass => !inClass
  | c :: rest, true => if c = ']' then globScan rest false else globScan rest true
  | c :: rest, false => if c = '[' then globScan rest true else globScan rest false

/-- Modelled from the spec: well-formedness of one path pattern. -/
def pathPatternWellFormed (s : String) : Bool :=
  !s.isEmpty && globScan s.toList false

/-- A concrete instance of the external `os` module, used for closed
evaluations of the embedding: `abspath` resolves a relative path against
the directory `/home/user/docs`. -/
def demoOS : OSModule := ⟨fun p => "/home/user/docs/" ++ p⟩

/-- Claim C1, counterexample: the claim states that for every import of
the module, interpreter state outside the module top-level names — in
particular `sys.path` — is the same after evaluation as before.  It is
false at the concrete input `demoOS` with an empty initial `sys.path`:
the path-setup section inserts the absolute path of `../src`, so
`sys.path` is no longer empty after evaluation. -/
theorem c1_counterexample :
    (evalConfModule demoOS (⟨[], ()⟩ : InterpState Unit)).1.sysPath
      ≠ ([] : List String) := by
  decide

/-- Claim C1, amended: evaluating the configuration module produces the
static configuration bindings, and its only effect on interpreter state
outside the module top-level names is to insert the absolute path of
`../src` at position 0 of `sys.path`; all other interpreter state is
unchanged. -/
theorem c1_frame {σ : Type} (os : OSModule) (s : InterpState σ) :
    (evalConfModule os s).1.sysPath = os.path_abspath "../src" :: s.sysPath ∧
    (evalConfModule os s).1.other = s.other ∧
    (evalConfModule os s).2 = moduleBindings os :=
  ⟨rfl, rfl, rfl⟩

/-- Witness for `c1_frame` at the concrete state with one prior
`sys.path` entry. -/
theorem c1_frame_witness :
    (evalConfModule demoOS (⟨["/usr/lib/python3"], (0 : Nat)⟩ : InterpState Nat)).1.sysPath
      = demoOS.path_abspath "../src" :: ["/usr/lib/python3"] ∧
    (evalConfModule demoOS (⟨["/usr/lib/python3"], (0 : Nat)⟩ : InterpState Nat)).1.other
      = (0 : Nat) ∧
    (evalConfModule demoOS (⟨["/usr/lib/python3"], (0 : Nat)⟩ : InterpState Nat)).2
      = moduleBindings demoOS :=
  c1_frame demoOS ⟨["/usr/lib/python3"], (0 : Nat)⟩

/-- Claim C2: for every application object passed to it, `setup` returns
the same literal dictionary mapping `version` to `0.1` and both
parallel-safety flags to `True`, independent of the argument and without
reading or modifying it. -/
theorem c2_setup_static {App : Type} (app : App) :
    setup app =
      [("version", Value.str "0.1"),
       ("parallel_read_safe", Value.bool true),
       ("parallel_write_safe", Value.bool true)] :=
  rfl

/-- Witness for `c2_setup_static` at the concrete application object
`0 : Nat`. -/
theorem c2_setup_static_witness :
    setup (0 : Nat) =
      [("version", Value.str "0.1"),
       ("parallel_read_safe", Value.bool true),
       ("parallel_write_safe", Value.bool true)] :=
  c2_setup_static (0 : Nat)

/-- Claim C3: for every application object, the dictionary returned by
`setup` maps `parallel_read_safe` to `True` and `parallel_write_safe` to
`True`. -/
theorem c3_parallel_flags {App : Type} (app : App) :
    dictLookup (setup app) "parallel_read_safe" = some (Value.bool true) ∧
    dictLookup (setup app) "parallel_write_safe" = some (Value.bool true) :=
  ⟨rfl, rfl⟩

/-- Witness for `c3_parallel_flags` at the concrete application object
`0 : Nat`. -/
theorem c3_parallel_flags_witness :
    dictLookup (setup (0 : Nat)) "parallel_read_safe" = some (Value.bool true) ∧
    dictLookup (setup (0 : Nat)) "parallel_write_safe" = some (Value.bool true) :=
  c3_parallel_flags (0 : Nat)

/-- Claim C4: each of the three strings in `linkcheck_ignore` is a
well-formed regular expression, and each of the three strings in
`exclude_patterns` is a well-formed path pattern. -/
theorem c4_patterns_wellformed :
    linkcheck_ignore.length = 3 ∧
    linkcheck_ignore.all regexWellFormed = true ∧
    exclude_patterns.length = 3 ∧
    exclude_patterns.all pathPatternWellFormed = true := by
  decide

/-- Claim C5: `latex_documents`, `man_pages` and `texinfo_documents`
each consist of a single tuple whose first element equals `master_doc`,
which is the string `index`; and in the module assignment order
`master_doc` is bound before each of the three descriptors. -/
theorem c5_master_doc_agreement :
    master_doc = "index" ∧
    latex_documents.length = 1 ∧
    man_pages.length = 1 ∧
    texinfo_documents.length = 1 ∧
    latex_documents.head?.bind List.head? = some (Value.str master_doc) ∧
    man_pages.head?.bind List.head? = some (Value.str master_doc) ∧
    texinfo_documents.head?.bind List.head? = some (Value.str master_doc) ∧
    List.indexOf "master_doc" assignedNames < List.indexOf "latex_documents" assignedNames ∧
    List.indexOf "master_doc" assignedNames < List.indexOf "man_pages" assignedNames ∧
    List.indexOf "master_doc" assignedNames < List.indexOf "texinfo_documents" assignedNames := by
  refine ⟨rfl, rfl, rfl, rfl, rfl, rfl, rfl, ?_, ?_, ?_⟩ <;> decide

/-- Claim C6: in the evaluated module, `intersphinx_mapping` is a
dictionary with exactly one entry, mapping the key `python` to the pair
of the string `https://docs.python.org/3/` and `None`. -/
theorem c6_intersphinx (os : OSModule) :
    dictLookup (moduleBindings os) "intersphinx_mapping" =
      some (Value.dict
        [("python", Value.tuple [Value.str "https://docs.python.org/3/", Value.none])]) ∧
    intersphinx_mapping.length = 1 :=
  ⟨rfl, rfl⟩

/-- Witness for `c6_intersphinx` at the concrete `os` instance
`demoOS`. -/
theorem c6_intersphinx_witness :
    dictLookup (moduleBindings demoOS) "intersphinx_mapping" =
      some (Value.dict
        [("python", Value.tuple [Value.str "https://docs.python.org/3/", Value.none])]) ∧
    intersphinx_mapping.length = 1 :=
  c6_intersphinx demoOS

/-- Claim C7: `html_context` maps `display_github` to `True`,
`github_user` to `lenhanpham`, `github_repo` to `gaussian-extractor`,
`github_version` to `main` and `conf_py_path` to `/docs/`, and
`html_theme` is the string `furo`. -/
theorem c7_github_context :
    dictLookup html_context "display_github" = some (Value.bool true) ∧
    dictLookup html_context "github_user" = some (Value.str "lenhanpham") ∧
    dictLookup html_context "github_repo" = some (Value.str "gaussian-extractor") ∧
    dictLookup html_context "github_version" = some (Value.str "main") ∧
    dictLookup html_context "conf_py_path" = some (Value.str "/docs/") ∧
    html_theme = "furo" :=
  ⟨rfl, rfl, rfl, rfl, rfl, rfl⟩

/-- Claim C8: the Doxygen stdin string contains exactly two lines
assigning `EXCLUDE_PATTERNS`; the first assigns the test/example
directory patterns, the last assigns `*/src/*.cpp`, and under
last-assignment-wins semantics the effective value of
`EXCLUDE_PATTERNS` is `*/src/*.cpp`. -/
theorem c8_exclude_patterns_shadowed :
    excludeAssignments.length = 2 ∧
    excludeAssignments.head?.map Prod.snd =
      some "*/test/* */tests/* */example/* */examples/*" ∧
    excludeAssignments.getLast?.map Prod.snd = some "*/src/*.cpp" ∧
    doxyEffective "EXCLUDE_PATTERNS" = some "*/src/*.cpp" := by
  decide

/-- Claim C9: the module binds both `release` and `version` to `0.5.0`,
while for every application object the dictionary returned by `setup`
maps `version` to the different string `0.1`. -/
theorem c9_version_mismatch {App : Type} (app : App) :
    release = "0.5.0" ∧
    version = "0.5.0" ∧
    dictLookup (setup app) "version" = some (Value.str "0.1") ∧
    ("0.1" : String) ≠ release :=
  ⟨rfl, rfl, rfl, by decide⟩

/-- Witness for `c9_version_mismatch` at the concrete application
object `0 : Nat`. -/
theorem c9_version_mismatch_witness :
    release = "0.5.0" ∧
    version = "0.5.0" ∧
    dictLookup (setup (0 : Nat)) "version" = some (Value.str "0.1") ∧
    ("0.1" : String) ≠ release :=
  c9_version_mismatch (0 : Nat)

/-- Claim C10: `breathe_default_project` is a key of the
`breathe_projects` dictionary, and that dictionary maps it to the path
`./xml/`. -/
theorem c10_breathe_consistent :
    (breathe_projects.map Prod.fst).contains breathe_default_project = true ∧
    dictLookup breathe_projects breathe_default_project = some (Value.str "./xml/") := by
  exact ⟨rfl, rfl⟩

end DocsConf
